import Mathlib

/-!
A shallow embedding of the scoring, ranking and content-generation logic of
the ContentGeneration_LL repository (src/config.py, src/influencer_finder.py,
src/content_generator.py), together with theorems settling the specification
claims about it.

Modelling conventions:
* Python strings are Lean `String` values; the Python substring test
  `needle in hay` is `strIn`, `hay.replace(needle, rep, 1)` is
  `replaceFirstL`, `str.lower()` is `pyLower`, `str.split()` is
  `splitWs`.
* Integer counts coming from the API (subscriber/video/view/like/comment
  counts) are arbitrary-precision Python ints, modelled by `ℤ`; Python float
  arithmetic on them is modelled exactly by `ℚ`.
* `published_at` fields are consumed only through
  `datetime.fromisoformat(...)` guarded by `try/except`, and only the
  resulting age in days relative to `datetime.now()` is ever used.  The
  parse outcome is therefore modelled as `Option ℤ`: `none` when the field
  is missing or unparseable (the `except` branch), `some d` when parsing
  yields an age of `d` days.
* Python's stable `list.sort(key=k, reverse=True)` keeps elements with equal
  keys in their original relative order; it is modelled by the stable
  `List.mergeSort` with the boolean order `k b ≤ k a`.
* `random.choice(pool)` is modelled by `pickFrom pool r` for an arbitrary
  natural number `r`; `random.sample`/`random.uniform` outcomes are taken as
  extra parameters.
-/

/-- Does the character list `nd` occur at the very start of `hay`? -/
def startsWithL : List Char → List Char → Bool
  | [], _ => true
  | _ :: _, [] => false
  | a :: as, b :: bs => a == b && startsWithL as bs

/-- First occurrence of `nd` inside `hay`, scanning left to right:
`some (before, after)` means `hay = before ++ nd ++ after` and no earlier
position matches. -/
def splitFirstL (nd : List Char) : List Char → Option (List Char × List Char)
  | [] => if startsWithL nd [] then some ([], []) else none
  | c :: t =>
    if startsWithL nd (c :: t) then some ([], (c :: t).drop nd.length)
    else
      match splitFirstL nd t with
      | some (a, b) => some (c :: a, b)
      | none => none

/-- Python's substring test `nd in hay` on character lists. -/
def containsSub (nd hay : List Char) : Bool := (splitFirstL nd hay).isSome

/-- Python's `hay.replace(nd, rep, 1)`: replace the first occurrence only. -/
def replaceFirstL (nd rep hay : List Char) : List Char :=
  match splitFirstL nd hay with
  | some (a, b) => a ++ rep ++ b
  | none => hay

/-- Python's substring test `nd in hay` on strings. -/
def strIn (nd hay : String) : Bool := containsSub nd.toList hay.toList

/-- Helper for Python's `str.split()`: accumulate the current word (reversed)
while scanning. -/
def splitWsAux : List Char → List Char → List (List Char)
  | acc, [] => if acc.isEmpty then [] else [acc.reverse]
  | acc, c :: t =>
    if c.isWhitespace then
      if acc.isEmpty then splitWsAux [] t else acc.reverse :: splitWsAux [] t
    else splitWsAux (c :: acc) t

/-- Python's `str.split()` (split on whitespace runs, no empty words). -/
def splitWs (s : String) : List String := (splitWsAux [] s.toList).map String.mk

/-- Python's `str.lower()` (character-by-character, over the list backing of
the string). -/
def pyLower (s : String) : String := String.mk (s.toList.map Char.toLower)

/-- `config.MIN_SUBSCRIBER_COUNT` (50K subscribers for influencer
consideration). -/
def MIN_SUBSCRIBER_COUNT : ℤ := 50000

/-- `config.MIN_VIEW_COUNT` (100K views threshold). -/
def MIN_VIEW_COUNT : ℤ := 100000

/-- A channel statistics record as produced by the data-source adapter
(`get_channel_statistics`).  `published_age_days` is the outcome of parsing
`published_at` relative to `datetime.now()` (see the module conventions). -/
structure ChannelStats where
  channel_title : String
  description : String
  subscriber_count : ℤ
  video_count : ℤ
  view_count : ℤ
  published_age_days : Option ℤ

/-- The `text_to_check` built by `_is_ai_related_channel` and
`_calculate_ai_relevance_score`: lowercased title, a space, lowercased
description. -/
def channelText (s : ChannelStats) : String :=
  pyLower s.channel_title ++ " " ++ pyLower s.description

/-- The `ai_indicators` list of `_is_ai_related_channel`. -/
def aiIndicators : List String :=
  ["artificial intelligence", "machine learning", "deep learning",
   "neural network", "ai", "ml", "data science", "computer vision",
   "natural language processing", "nlp", "robotics", "automation",
   "chatgpt", "openai", "tensorflow", "pytorch", "kaggle",
   "algorithm", "programming", "coding", "tech", "technology"]

/-- `AIInfluencerFinder._is_ai_related_channel`: one point per indicator
occurring in the channel text, admitted iff the total is at least 2. -/
def isAIRelatedChannel (s : ChannelStats) : Bool :=
  let text := channelText s
  let score : ℕ := aiIndicators.foldl (fun a k => if strIn k text then a + 1 else a) 0
  decide (2 ≤ score)

/-- `AIInfluencerFinder._calculate_growth_score`.  The `except` branch and
the non-positive-age fall-through both yield `0.0`. -/
def growthScore (s : ChannelStats) : ℚ :=
  match s.published_age_days with
  | none => 0
  | some age =>
    if 0 < age then
      let videos_per_day : ℚ := (s.video_count : ℚ) / (age : ℚ)
      let views_per_video : ℚ := (s.view_count : ℚ) / ((max s.video_count 1 : ℤ) : ℚ)
      min (videos_per_day * 365 * 10 + views_per_video / 10000) 1000
    else 0

/-- `AIInfluencerFinder._calculate_ai_relevance_score`. -/
def aiRelevanceScore (s : ChannelStats) : ℚ :=
  let text := channelText s
  let high_value := ["artificial intelligence", "machine learning", "deep learning", "ai", "ml"]
  let medium_value := ["data science", "programming", "tech", "computer science", "automation"]
  let low_value := ["tutorial", "coding", "software", "algorithm", "python"]
  let s1 : ℚ := high_value.foldl (fun a k => if strIn k text then a + 20 else a) 0
  let s2 : ℚ := medium_value.foldl (fun a k => if strIn k text then a + 10 else a) s1
  let s3 : ℚ := low_value.foldl (fun a k => if strIn k text then a + 5 else a) s2
  min s3 100

/-- A channel record after `find_ai_influencers` wrote the derived
`growth_score` and `ai_relevance_score` fields onto it. -/
structure RankedChannel where
  stats : ChannelStats
  growth_score : ℚ
  ai_relevance_score : ℚ

/-- The enrichment step of `find_ai_influencers` (lines 62-63). -/
def enrichChannel (s : ChannelStats) : RankedChannel :=
  ⟨s, growthScore s, aiRelevanceScore s⟩

/-- The sort key of `find_ai_influencers`:
`subscriber_count * 0.4 + growth_score * 0.3 + ai_relevance_score * 0.3`. -/
def compositeScore (r : RankedChannel) : ℚ :=
  (r.stats.subscriber_count : ℚ) * 0.4 + r.growth_score * 0.3 + r.ai_relevance_score * 0.3

/-- The admission filter of `find_ai_influencers` (line 58-59): subscriber
threshold and AI-relevance gate. -/
def passesInfluencerFilter (s : ChannelStats) : Bool :=
  decide (MIN_SUBSCRIBER_COUNT ≤ s.subscriber_count) && isAIRelatedChannel s

/-- The `ai_influencers` list built by `find_ai_influencers` before sorting:
admitted channels, in input order, enriched with the two derived scores. -/
def influencerPool (channel_stats : List ChannelStats) : List RankedChannel :=
  (channel_stats.filter passesInfluencerFilter).map enrichChannel

/-- Python's stable `list.sort(key=key, reverse=True)`: a stable sort that
puts larger keys first and keeps equal keys in input order. -/
def pythonSortDescBy {α : Type} (key : α → ℚ) (l : List α) : List α :=
  l.mergeSort (fun a b => decide (key b ≤ key a))

/-- `AIInfluencerFinder.find_ai_influencers`, from the filtering step on
(the upstream keyword search and dedup produce its `channel_stats` input). -/
def findAIInfluencers (limit : ℕ) (channel_stats : List ChannelStats) : List RankedChannel :=
  (pythonSortDescBy compositeScore (influencerPool channel_stats)).take limit

/-- A video record as produced by the data-source adapter
(`get_channel_videos`); `published_age_days` as in `ChannelStats`. -/
structure VideoStats where
  title : String
  description : String
  view_count : ℤ
  like_count : ℤ
  comment_count : ℤ
  published_age_days : Option ℤ

/-- `AIInfluencerFinder._calculate_engagement_rate`. -/
def engagementRate (v : VideoStats) : ℚ :=
  let view_count : ℤ := max v.view_count 1
  min (((v.like_count : ℚ) + (v.comment_count : ℚ) * 2) / (view_count : ℚ) * 100) 100

/-- The recency component of `_calculate_performance_score`:
`max(0, 365 - days_old) / 365`, and `0` on the `except` branch. -/
def recencyScore (v : VideoStats) : ℚ :=
  match v.published_age_days with
  | none => 0
  | some days_old => ((max 0 (365 - days_old) : ℤ) : ℚ) / 365

/-- `AIInfluencerFinder._calculate_performance_score`; `engagement_rate` is
the field previously stored on the video and `subscriber_count` comes from
the owning influencer record. -/
def performanceScore (v : VideoStats) (engagement_rate : ℚ) (subscriber_count : ℤ) : ℚ :=
  let view_ratio : ℚ := (v.view_count : ℚ) / ((max subscriber_count 1 : ℤ) : ℚ)
  view_ratio * 1000 + engagement_rate * 10 + recencyScore v * 100

/-- `AIContentGenerator._load_content_templates` (placeholder slots written
`\x7b\x7d`). -/
def contentTemplates : List (String × List String) :=
  [("tutorial",
    ["How to Build \x7b\x7d in \x7b\x7d Minutes",
     "Complete \x7b\x7d Tutorial for Beginners",
     "Master \x7b\x7d in \x7b\x7d Steps",
     "\x7b\x7d Explained Simply",
     "Build Your First \x7b\x7d Project"]),
   ("news",
    ["Breaking: \x7b\x7d Changes Everything",
     "Latest \x7b\x7d Updates You Need to Know",
     "\x7b\x7d News This Week",
     "Why \x7b\x7d is Trending Now",
     "The Future of \x7b\x7d is Here"]),
   ("comparison",
    ["\x7b\x7d vs \x7b\x7d: Which is Better?",
     "Comparing \x7b\x7d and \x7b\x7d in \x7b\x7d",
     "\x7b\x7d or \x7b\x7d? The Ultimate Guide",
     "Why \x7b\x7d Beats \x7b\x7d Every Time",
     "The Truth About \x7b\x7d vs \x7b\x7d"]),
   ("explanation",
    ["\x7b\x7d Explained in \x7b\x7d Minutes",
     "What is \x7b\x7d? Everything You Need to Know",
     "Understanding \x7b\x7d Once and For All",
     "The Science Behind \x7b\x7d",
     "How \x7b\x7d Actually Works"]),
   ("prediction",
    ["Why \x7b\x7d Will Dominate \x7b\x7d",
     "The Future of \x7b\x7d in \x7b\x7d",
     "\x7b\x7d Predictions for \x7b\x7d",
     "What\x27s Next for \x7b\x7d?",
     "How \x7b\x7d Will Change \x7b\x7d"]),
   ("review",
    ["I Tested \x7b\x7d for \x7b\x7d Days",
     "\x7b\x7d Review: Is It Worth It?",
     "Honest \x7b\x7d Review After \x7b\x7d Months",
     "The Truth About \x7b\x7d",
     "\x7b\x7d Deep Dive Review"])]

/-- The abbreviation table of `AIContentGenerator._format_topic`. -/
def abbreviationMap : List (String × String) :=
  [("ai", "AI"), ("ml", "Machine Learning"), ("nlp", "NLP"),
   ("gpt", "GPT"), ("llm", "Large Language Models")]

/-- Python's `str.capitalize()`: first character uppercased, rest
lowercased. -/
def capWord (w : String) : String :=
  match w.toList with
  | [] => ""
  | c :: t => String.mk (c.toUpper :: t.map Char.toLower)

/-- Python's `' '.join(ws)`. -/
def joinSpace : List String → String
  | [] => ""
  | [w] => w
  | w :: ws => w ++ " " ++ joinSpace ws

/-- `AIContentGenerator._format_topic`. -/
def formatTopic (topic : String) : String :=
  match abbreviationMap.lookup (pyLower topic) with
  | some t => t
  | none => joinSpace ((splitWs topic).map capWord)

/-- The `popular_ai_hashtags` fallback list of
`_select_hashtags_for_topic`. -/
def popularAIHashtags : List String :=
  ["#AI", "#MachineLearning", "#Tech", "#Programming", "#Tutorial", "#Coding"]

/-- `hashtag.replace('#', '').lower()` in `_select_hashtags_for_topic`. -/
def cleanHashtag (h : String) : String :=
  pyLower (String.mk (h.toList.filter (fun c => c != '#')))

/-- The topic-relevance keyword list of `_select_hashtags_for_topic`. -/
def hashtagKeywords : List String := ["ai", "ml", "tech", "coding", "tutorial"]

/-- The per-hashtag relevance score of `_select_hashtags_for_topic`:
+10 for a direct match in the title, +5 per matching word, +3 for containing
a tech keyword. -/
def hashtagScore (title_lower : String) (h : String) : ℕ :=
  let hashtag_clean := cleanHashtag h
  let s1 : ℕ := if strIn hashtag_clean title_lower then 10 else 0
  let s2 : ℕ := (splitWs hashtag_clean).foldl (fun a w => if strIn w title_lower then a + 5 else a) s1
  if hashtagKeywords.any (fun k => strIn k hashtag_clean) then s2 + 3 else s2

/-- Helper for `dedupFirst`: drop elements already seen. -/
def dedupFirstAux (seen : List String) : List String → List String
  | [] => []
  | h :: t => if h ∈ seen then dedupFirstAux seen t else h :: dedupFirstAux (h :: seen) t

/-- Key order of the `hashtag_scores` dict: first occurrence wins (a Python
dict keeps the insertion position of a key on overwrite). -/
def dedupFirst (l : List String) : List String := dedupFirstAux [] l

/-- The keys of the `hashtag_scores` dict of `_select_hashtags_for_topic`:
candidate hashtags, first occurrence first, restricted to positive scores. -/
def positivelyScoredHashtags (title : String) (hashtags : List String) : List String :=
  (dedupFirst hashtags).filter (fun h => decide (0 < hashtagScore (pyLower title) h))

/-- The `while len(relevant_hashtags) < 8 and popular_ai_hashtags:` padding
loop of `_select_hashtags_for_topic`. -/
def padHashtags (cur : List String) : List String → List String
  | [] => cur
  | p :: ps =>
    if cur.length < 8 then
      if p ∈ cur then padHashtags cur ps else padHashtags (cur ++ [p]) ps
    else cur

/-- `AIContentGenerator._select_hashtags_for_topic` (with the default
`max_hashtags = 15`). -/
def selectHashtagsForTopic (title : String) (hashtags : List String) : List String :=
  let scored := positivelyScoredHashtags title hashtags
  let sorted := scored.mergeSort
    (fun a b => decide (hashtagScore (pyLower title) b ≤ hashtagScore (pyLower title) a))
  padHashtags (sorted.take 15) popularAIHashtags

/-- The distinct candidate supply for hashtag selection: the positively
scored hashtags plus the fallback hashtags not already among them. -/
def hashtagCandidatePool (title : String) (hashtags : List String) : List String :=
  positivelyScoredHashtags title hashtags ++
    popularAIHashtags.filter (fun p => decide (p ∉ positivelyScoredHashtags title hashtags))

/-- The `trending_keywords` bonus list of `_calculate_trend_score`. -/
def trendingKeywords : List String := ["2024", "2025", "new", "latest", "breakthrough", "future"]

/-- `AIContentGenerator._calculate_trend_score`; `trending_topics` is the
topic-to-frequency dict in insertion order. -/
def calculateTrendScore (title : String) (trending_topics : List (String × ℤ)) : ℤ :=
  let title_lower := (pyLower title)
  let s1 : ℤ := trending_topics.foldl
    (fun a p => if strIn p.1 title_lower then a + p.2 * 2 else a) 0
  let s2 : ℤ := trendingKeywords.foldl (fun a k => if strIn k title_lower then a + 5 else a) s1
  min s2 100

/-- Python's `int(q)` on a non-complex number: truncation toward zero. -/
def pyInt (q : ℚ) : ℤ := q.num / (q.den : ℤ)

/-- The `base_views` table of `_estimate_views`. -/
def baseViewsTable : List (String × ℤ) :=
  [("tutorial", 150000), ("news", 200000), ("comparison", 180000),
   ("explanation", 120000), ("prediction", 250000), ("review", 100000)]

/-- `base_views.get(category, 150000)` in `_estimate_views`. -/
def baseViewsFor (category : String) : ℤ := (baseViewsTable.lookup category).getD 150000

/-- `AIContentGenerator._estimate_views`; `u` is the sampled
`random.uniform(0.5, 1.5)` factor. -/
def estimateViews (trend_score : ℚ) (category : String) (u : ℚ) : ℤ :=
  pyInt ((baseViewsFor category : ℚ) * (1 + trend_score / 100) * u)

/-- The `difficulty_map` of `_estimate_difficulty`. -/
def difficultyTable : List (String × String) :=
  [("tutorial", "Medium"), ("news", "Easy"), ("comparison", "Medium"),
   ("explanation", "Hard"), ("prediction", "Medium"), ("review", "Easy")]

/-- `difficulty_map.get(category, 'Medium')` in `_estimate_difficulty`. -/
def baseDifficultyFor (category : String) : String :=
  (difficultyTable.lookup category).getD "Medium"

/-- The complexity word list of `_estimate_difficulty`. -/
def complexityWords : List String := ["deep", "advanced", "complex", "science"]

/-- `AIContentGenerator._estimate_difficulty`. -/
def estimateDifficulty (category title : String) : String :=
  let base_difficulty := baseDifficultyFor category
  if complexityWords.any (fun w => strIn w (pyLower title)) then
    if base_difficulty = "Easy" then "Medium"
    else if base_difficulty = "Medium" then "Hard"
    else base_difficulty
  else base_difficulty

/-- The one-level escalation described by the specification: Easy becomes
Medium, Medium becomes Hard, anything else (in particular Hard) is kept. -/
def escalateOneLevel (d : String) : String :=
  if d = "Easy" then "Medium" else if d = "Medium" then "Hard" else d

/-- The `thumbnail_concepts` table of `_generate_thumbnail_concept`. -/
def thumbnailConceptTable : List (String × List String) :=
  [("tutorial",
    ["Split-screen showing before/after code results",
     "Person pointing at code on a large screen",
     "Step-by-step visual progress bars",
     "Hand typing on keyboard with code overlay"]),
   ("news",
    ["Breaking news style with bold red background",
     "Tech headlines with shocked expression",
     "Trending arrows and news ticker style",
     "Professional news anchor setup"]),
   ("comparison",
    ["Split-screen VS layout with logos",
     "Two products side by side with checkmarks",
     "Battle-style confrontation design",
     "Pros and cons visual comparison"]),
   ("explanation",
    ["Complex diagram simplified with arrows",
     "Teacher-style whiteboard explanation",
     "Lightbulb moment with clear graphics",
     "Step-by-step visual breakdown"]),
   ("prediction",
    ["Futuristic crystal ball or fortune teller",
     "Timeline with future milestones",
     "Rocket ship or upward trending charts",
     "Calendar with highlighted future dates"]),
   ("review",
    ["Product with star ratings overlay",
     "Thumbs up/down with product image",
     "Before and after user experience",
     "Honest review with serious expression"])]

/-- The fallback concept list of `_generate_thumbnail_concept`. -/
def genericThumbnailConcepts : List String := ["Clean, professional design with clear text"]

/-- `thumbnail_concepts.get(category, [...])` in
`_generate_thumbnail_concept`. -/
def thumbnailConceptsFor (category : String) : List String :=
  (thumbnailConceptTable.lookup category).getD genericThumbnailConcepts

/-- `random.choice(pool)` modelled by an arbitrary draw `r` reduced modulo
the pool size. -/
def pickFrom (pool : List String) (r : ℕ) : String := pool.getD (r % pool.length) ""

/-- The title-specific suffix logic of `_generate_thumbnail_concept`. -/
def thumbnailSuffix (title : String) : String :=
  if strIn "chatgpt" (pyLower title) then " with ChatGPT logo"
  else if strIn "ai" (pyLower title) then " with AI/robot elements"
  else if strIn "python" (pyLower title) then " with Python logo"
  else ""

/-- `AIContentGenerator._generate_thumbnail_concept`. -/
def generateThumbnailConcept (title category : String) (r : ℕ) : String :=
  pickFrom (thumbnailConceptsFor category) r ++ thumbnailSuffix title

/-- The `cta_templates` table of `_generate_call_to_action`. -/
def ctaTable : List (String × String) :=
  [("tutorial", "Try building this yourself and share your results in the comments!"),
   ("news", "What do you think about this development? Share your thoughts below!"),
   ("comparison", "Which option do you prefer? Let me know in the comments!"),
   ("explanation", "Did this help clarify the concept for you? Ask any questions below!"),
   ("prediction", "Do you agree with my predictions? Share your thoughts!"),
   ("review", "Are you planning to try this? Let me know what you think!")]

/-- The generic fallback call-to-action text. -/
def genericCallToAction : String := "What are your thoughts? Share them in the comments!"

/-- `AIContentGenerator._generate_call_to_action`. -/
def generateCallToAction (category : String) : String :=
  (ctaTable.lookup category).getD genericCallToAction

/-- `AIContentGenerator._generate_tutorial_script`. -/
def tutorialScript (title : String) : String :=
  "\nWelcome back to the channel! Today we\x27re going to " ++ (pyLower title) ++
  ".\n\nIf you\x27re new here, I\x27m your host and I help people master AI and technology. Make sure to subscribe and hit the notification bell for more content like this.\n\nLet\x27s dive right in. In this tutorial, I\x27ll walk you through everything step by step.\n\nFirst, let me show you what we\x27re building today. [SHOW DEMO]\n\nNow, let\x27s break this down into manageable steps:\n\nStep 1: Setting Up Your Environment\nBefore we begin, you\x27ll need to have the following installed...\n\nStep 2: Understanding the Basics\nLet me explain the core concepts we\x27ll be using...\n\nStep 3: Implementation\nNow let\x27s start coding. I\x27ll explain each line as we go...\n\nStep 4: Testing and Debugging\nLet\x27s run our code and see what happens...\n\nStep 5: Optimization and Best Practices\nHere are some ways to improve and optimize what we\x27ve built...\n\nAnd that\x27s it! You\x27ve successfully completed this tutorial. \n\nIf you found this helpful, please give it a thumbs up and subscribe for more AI tutorials. Drop a comment below if you have any questions or if there\x27s something specific you\x27d like me to cover next.\n\nThanks for watching, and I\x27ll see you in the next video!\n"

/-- `AIContentGenerator._generate_news_script`. -/
def newsScript (title : String) : String :=
  "\nWhat\x27s up everyone! Today I have some incredible news to share with you about " ++ (pyLower title) ++
  ".\n\nBefore we jump in, make sure you\x27re subscribed because AI news moves fast and you don\x27t want to miss anything important.\n\nSo here\x27s what happened...\n\nThis is huge for several reasons. First, it means...\n\nSecond, this could completely change how we...\n\nBut here\x27s what really caught my attention...\n\nNow, you might be wondering what this means for you. Well...\n\nLooking at the broader implications, this could lead to...\n\nIndustry experts are saying...\n\nMy take on this is...\n\nWhat do you think about this development? Let me know in the comments below. Are you excited about this? Concerned? I want to hear your thoughts.\n\nIf you enjoyed this breakdown, hit that like button and subscribe for more AI news and analysis. I\x27ll be covering more developments as they happen.\n\nThanks for watching, and I\x27ll catch you in the next one!\n"

/-- `AIContentGenerator._generate_comparison_script` (interpolates the title
verbatim, not lowercased). -/
def comparisonScript (title : String) : String :=
  "\nHey everyone! Today we\x27re settling the debate once and for all: " ++ title ++
  "\n\nThis is one of the most requested comparisons I\x27ve gotten, so let\x27s break it down systematically.\n\nFirst, let me give you a quick overview of both options...\n\nNow, let\x27s compare them across several key criteria:\n\nPerformance:\nLet me show you some real-world tests...\n\nEase of Use:\nFrom a user experience perspective...\n\nCost:\nHere\x27s the pricing breakdown...\n\nFeatures:\nLet\x27s look at what each one offers...\n\nUse Cases:\nWhen would you choose one over the other?\n\nBased on all of this testing and analysis, here\x27s my verdict...\n\nThe winner depends on your specific needs. If you\x27re looking for X, go with option A. If you need Y, option B is your best bet.\n\nWhat\x27s your experience been with these tools? Drop a comment and let me know which one you prefer and why.\n\nDon\x27t forget to like this video if it helped you make a decision, and subscribe for more tech comparisons and reviews.\n\nSee you next time!\n"

/-- `AIContentGenerator._generate_explanation_script`. -/
def explanationScript (title : String) : String :=
  "\nHave you ever wondered about " ++ (pyLower title) ++
  "? Today we\x27re going to break it down in simple terms that anyone can understand.\n\nWelcome back to the channel where we make complex technology accessible to everyone. If you\x27re new here, subscribe for more explanations like this.\n\nLet\x27s start with the basics. What exactly is...?\n\nTo understand this better, let\x27s use an analogy...\n\nNow, here\x27s where it gets interesting...\n\nThe key components are...\n\nHere\x27s how it all works together...\n\nBut why does this matter? Well...\n\nThe real-world applications are incredible...\n\nSome common misconceptions people have are...\n\nLooking toward the future...\n\nI hope this explanation helped clarify things for you. If you have any questions, drop them in the comments and I\x27ll do my best to answer them.\n\nLike this video if you learned something new, and subscribe for more deep dives into technology and AI.\n\nThanks for watching!\n"

/-- `AIContentGenerator._generate_prediction_script`. -/
def predictionScript (title : String) : String :=
  "\nWhat if I told you that " ++ (pyLower title) ++
  "? \n\nToday we\x27re looking into the future and I\x27m going to share some predictions that might surprise you.\n\nMake sure you\x27re subscribed because predicting the future of AI is what we do here, and you don\x27t want to miss what\x27s coming next.\n\nBased on current trends and developments, here\x27s what I see happening...\n\nThe evidence for this prediction comes from several sources...\n\nMajor companies are already positioning themselves for this shift...\n\nThe timeline I\x27m predicting is...\n\nHere are the key indicators to watch for...\n\nNow, this could go a few different ways...\n\nScenario 1: If everything goes as expected...\n\nScenario 2: If there are major breakthroughs...\n\nScenario 3: If we hit unexpected obstacles...\n\nWhat does this mean for you? How should you prepare?\n\nMy advice is...\n\nRemember, these are predictions based on current data and trends. The future is never certain, but being prepared gives you an advantage.\n\nWhat do you think? Do you agree with my predictions? Share your thoughts in the comments.\n\nHit like if you enjoy these future-focused videos, and subscribe for more AI predictions and analysis.\n\nUntil next time, keep looking forward!\n"

/-- `AIContentGenerator._generate_review_script`. -/
def reviewScript (title : String) : String :=
  "\nI\x27ve been using this for weeks now, and today I\x27m giving you my honest review of " ++ (pyLower title) ++
  ".\n\nBefore we start, quick reminder to subscribe if you want more honest tech reviews without the hype.\n\nFirst impressions when I started using this...\n\nHere\x27s what I love about it...\n\nBut here\x27s what frustrated me...\n\nLet me show you how it performs in real-world scenarios...\n\n[DEMO/SCREEN RECORDING]\n\nPricing and value for money...\n\nHow does it compare to alternatives?\n\nWho is this really for?\n\nMy final verdict...\n\nPros:\n- [List key advantages]\n\nCons:\n- [List main drawbacks]\n\nOverall rating: X out of 10\n\nWould I recommend it? Here\x27s my take...\n\nThat\x27s my honest review. What questions do you have? Drop them in the comments and I\x27ll answer them.\n\nIf this review helped you make a decision, please like and subscribe for more honest tech reviews.\n\nThanks for watching!\n"

/-- `AIContentGenerator._generate_general_script`, the documented generic
fallback skeleton (interpolates the title verbatim). -/
def generalScript (title : String) : String :=
  "\nToday we\x27re talking about " ++ title ++
  ", and I think you\x27re going to find this really interesting.\n\nWelcome back to the channel! If you\x27re new here, I create content about AI and technology. Make sure to subscribe for more videos like this.\n\nLet me start by explaining why this topic matters...\n\nHere\x27s what most people don\x27t realize...\n\nLet me break this down for you...\n\nThe implications of this are huge because...\n\nHere\x27s a real example to illustrate this point...\n\nNow, you might be thinking...\n\nWhat does this mean for the future?\n\nMy take on all of this is...\n\nI\x27d love to hear your thoughts on this topic. Let me know in the comments what you think.\n\nIf you found this video valuable, please give it a like and subscribe for more content about AI and technology.\n\nThanks for watching, and I\x27ll see you in the next video!\n"

/-- `AIContentGenerator._generate_script_for_idea`: category dispatch with
the general script as the `else` fallback. -/
def generateScriptForIdea (category title : String) : String :=
  if category = "tutorial" then tutorialScript title
  else if category = "news" then newsScript title
  else if category = "comparison" then comparisonScript title
  else if category = "explanation" then explanationScript title
  else if category = "prediction" then predictionScript title
  else if category = "review" then reviewScript title
  else generalScript title

/-- The `'\x7b\x7d'` placeholder of the title templates, as a character
list. -/
def placeholderL : List Char := ['\x7b', '\x7d']

/-- The `for i, topic in enumerate(selected_topics)` loop of
`_generate_title_from_template`: fill one placeholder per sampled topic. -/
def fillTopicsLoop : List Char → List String → List Char
  | t, [] => t
  | t, topic :: rest =>
    if containsSub placeholderL t then
      fillTopicsLoop (replaceFirstL placeholderL (formatTopic topic).toList t) rest
    else fillTopicsLoop t rest

/-- The number pool for templates mentioning minutes or steps. -/
def minutesPool : List String := ["5", "10", "15", "20", "30"]

/-- The number pool for templates mentioning days. -/
def daysPool : List String := ["7", "14", "30", "60", "90"]

/-- The number pool for templates mentioning months. -/
def monthsPool : List String := ["1", "3", "6", "12"]

/-- The generic fill-in pool (years or temporal words). -/
def miscPool : List String := ["2024", "2025", "Today", "Now"]

/-- One fill-in of the `while '\x7b\x7d' in title` loop of
`_generate_title_from_template`: the pool depends on the current title. -/
def contextualFill (t : List Char) (r : ℕ) : List Char :=
  let tl := (pyLower (String.mk t)).toList
  if containsSub "minutes".toList tl || containsSub "steps".toList tl then
    (pickFrom minutesPool r).toList
  else if containsSub "days".toList tl then (pickFrom daysPool r).toList
  else if containsSub "months".toList tl then (pickFrom monthsPool r).toList
  else (pickFrom miscPool r).toList

/-- The number of opening-brace characters in a title.  Each iteration of
the `while` loop of `_generate_title_from_template` removes exactly one of
them, so this bounds the number of remaining iterations. -/
def braceCount (t : List Char) : ℕ := t.countP (fun c => c == '\x7b')

/-- The `while '\x7b\x7d' in title` loop of `_generate_title_from_template`,
run for at most `fuel` iterations (`rands i` is the `random.choice` draw of
iteration `i`).  With `fuel = braceCount t` this is an exact model of the
unbounded loop, which runs at most that many times. -/
def fillRemaining : ℕ → ℕ → List Char → (ℕ → ℕ) → List Char
  | 0, _, t, _ => t
  | fuel + 1, i, t, rands =>
    if containsSub placeholderL t then
      fillRemaining fuel (i + 1) (replaceFirstL placeholderL (contextualFill t (rands i)) t) rands
    else t

/-- `AIContentGenerator._generate_title_from_template`.  `selected_topics`
is the `random.sample` outcome (the `placeholder_count == 0` early return is
the `containsSub = false` branch, since `count` is zero iff no occurrence
exists). -/
def generateTitleFromTemplate (template : String) (selected_topics : List String)
    (rands : ℕ → ℕ) : String :=
  if containsSub placeholderL template.toList = false then template
  else
    let t1 := fillTopicsLoop template.toList selected_topics
    String.mk (fillRemaining (braceCount t1) 0 t1 rands)

/-- The fixed category enum of the content generator. -/
def knownCategories : List String :=
  ["tutorial", "news", "comparison", "explanation", "prediction", "review"]

/-- The channel of the specification scenario: subscriber_count 60000, title
"AI Explained", description "machine learning tutorials". -/
def exampleChannel : ChannelStats :=
  ⟨"AI Explained", "machine learning tutorials", 60000, 0, 0, none⟩

/-- The video of the specification scenario: view_count 100000, like_count
5000, comment_count 500. -/
def exampleVideo : VideoStats := ⟨"", "", 100000, 5000, 500, none⟩

theorem foldl_if_count {α : Type} (p : α → Bool) :
    ∀ (l : List α) (n : ℕ),
      l.foldl (fun a k => if p k then a + 1 else a) n = n + (l.filter p).length := by
  intro l
  induction l with
  | nil => intro n; simp
  | cons x t ih =>
    intro n
    by_cases h : p x
    · simp [h, ih, List.filter_cons]
      omega
    · simp [h, ih, List.filter_cons]

theorem le_foldl_if_add {α : Type} (p : α → Bool) (c : ℚ) (hc : 0 ≤ c) :
    ∀ (l : List α) (init : ℚ),
      init ≤ l.foldl (fun a k => if p k then a + c else a) init := by
  intro l
  induction l with
  | nil => intro init; simp
  | cons x t ih =>
    intro init
    by_cases h : p x
    · simp only [List.foldl_cons, h, if_true]
      calc init ≤ init + c := by linarith
        _ ≤ _ := ih (init + c)
    · simpa [h] using ih init

theorem foldl_if_add_eq {α : Type} (p : α → Bool) (g : α → ℤ) :
    ∀ (l : List α) (init : ℤ),
      l.foldl (fun a x => if p x then a + g x else a) init
        = init + ((l.filter p).map g).sum := by
  intro l
  induction l with
  | nil => intro init; simp
  | cons x t ih =>
    intro init
    by_cases h : p x
    · simp [h, ih, List.filter_cons]
      ring
    · simp [h, ih, List.filter_cons]

/-- C2: a channel passes the AI-relevance admission gate iff at least two
distinct indicator keywords of the broad indicator list occur as substrings
of the lowercased title-and-description text; moreover the scenario channel
(60000 subscribers, title "AI Explained", description
"machine learning tutorials") passes the gate and the 50000-subscriber
threshold. -/
theorem ai_gate_iff_two_indicators :
    (∀ s : ChannelStats,
      isAIRelatedChannel s = true ↔
        2 ≤ (aiIndicators.filter (fun k => strIn k (channelText s))).length) ∧
    isAIRelatedChannel exampleChannel = true ∧
    (50000 : ℤ) ≤ exampleChannel.subscriber_count := by
  refine ⟨fun s => ?_, by decide, by decide⟩
  simp only [isAIRelatedChannel, decide_eq_true_eq, foldl_if_count]
  omega

/-- C3: for every video with non-negative like, comment and view counts the
engagement rate is `min(((like + 2*comments) / max(views,1)) * 100, 100)`,
hence lies in `[0, 100]`; the scenario video (100000 views, 5000 likes, 500
comments) gets engagement rate 6. -/
theorem engagement_rate_spec :
    (∀ v : VideoStats, 0 ≤ v.like_count → 0 ≤ v.comment_count → 0 ≤ v.view_count →
      engagementRate v =
        min (((v.like_count : ℚ) + 2 * (v.comment_count : ℚ)) / max (v.view_count : ℚ) 1 * 100) 100 ∧
      0 ≤ engagementRate v ∧ engagementRate v ≤ 100) ∧
    engagementRate exampleVideo = 6 := by
  constructor
  · intro v hl hc _
    have hmax : ((max v.view_count 1 : ℤ) : ℚ) = max (v.view_count : ℚ) 1 := by
      simp [Int.cast_max]
    have hl' : (0 : ℚ) ≤ (v.like_count : ℚ) := by exact_mod_cast hl
    have hc' : (0 : ℚ) ≤ (v.comment_count : ℚ) := by exact_mod_cast hc
    have hden : (0 : ℚ) ≤ ((max v.view_count 1 : ℤ) : ℚ) := by
      have : (0 : ℤ) ≤ max v.view_count 1 := le_trans zero_le_one (le_max_right _ _)
      exact_mod_cast this
    have hx : (0 : ℚ) ≤ ((v.like_count : ℚ) + (v.comment_count : ℚ) * 2) /
        ((max v.view_count 1 : ℤ) : ℚ) * 100 := by
      apply mul_nonneg _ (by norm_num)
      exact div_nonneg (by linarith) hden
    refine ⟨?_, ?_, ?_⟩
    · simp only [engagementRate, hmax]
      congr 1
      ring
    · exact le_min hx (by norm_num)
    · exact min_le_right _ _
  · simp only [engagementRate, exampleVideo]
    norm_num

theorem engagement_rate_spec_witness :
    0 ≤ engagementRate exampleVideo ∧ engagementRate exampleVideo ≤ 100 :=
  ⟨(engagement_rate_spec.1 exampleVideo (by decide) (by decide) (by decide)).2.1,
   (engagement_rate_spec.1 exampleVideo (by decide) (by decide) (by decide)).2.2⟩

/-- C4: for every channel with non-negative subscriber, video and view
counts, and every `published_at` outcome (parseable or not), the derived
scores are bounded: `ai_relevance_score ∈ [0, 100]` and
`growth_score ∈ [0, 1000]`. -/
theorem derived_score_bounds (s : ChannelStats)
    (_hs : 0 ≤ s.subscriber_count) (hv : 0 ≤ s.video_count) (hw : 0 ≤ s.view_count) :
    (0 ≤ aiRelevanceScore s ∧ aiRelevanceScore s ≤ 100) ∧
    (0 ≤ growthScore s ∧ growthScore s ≤ 1000) := by
  refine ⟨⟨?_, ?_⟩, ?_⟩
  · simp only [aiRelevanceScore]
    refine le_min ?_ (by norm_num)
    have h1 := le_foldl_if_add (fun k => strIn k (channelText s)) 20 (by norm_num)
      ["artificial intelligence", "machine learning", "deep learning", "ai", "ml"] 0
    have h2 := le_foldl_if_add (fun k => strIn k (channelText s)) 10 (by norm_num)
      ["data science", "programming", "tech", "computer science", "automation"]
      (["artificial intelligence", "machine learning", "deep learning", "ai", "ml"].foldl
        (fun a k => if strIn k (channelText s) then a + 20 else a) 0)
    have h3 := le_foldl_if_add (fun k => strIn k (channelText s)) 5 (by norm_num)
      ["tutorial", "coding", "software", "algorithm", "python"]
      (["data science", "programming", "tech", "computer science", "automation"].foldl
        (fun a k => if strIn k (channelText s) then a + 10 else a)
        (["artificial intelligence", "machine learning", "deep learning", "ai", "ml"].foldl
          (fun a k => if strIn k (channelText s) then a + 20 else a) 0))
    linarith
  · simp only [aiRelevanceScore]
    exact min_le_right _ _
  · cases hpub : s.published_age_days with
    | none => simp [growthScore, hpub]
    | some age =>
      by_cases hage : 0 < age
      · simp only [growthScore, hpub, hage, if_true]
        constructor
        · refine le_min ?_ (by norm_num)
          have hageQ : (0 : ℚ) < (age : ℚ) := by exact_mod_cast hage
          have hv' : (0 : ℚ) ≤ (s.video_count : ℚ) := by exact_mod_cast hv
          have hw' : (0 : ℚ) ≤ (s.view_count : ℚ) := by exact_mod_cast hw
          have hm : (0 : ℚ) ≤ ((max s.video_count 1 : ℤ) : ℚ) := by
            have h : (0 : ℤ) ≤ max s.video_count 1 :=
              le_trans zero_le_one (le_max_right _ _)
            exact_mod_cast h
          have t1 : (0 : ℚ) ≤ (s.video_count : ℚ) / (age : ℚ) * 365 * 10 := by
            have := div_nonneg hv' hageQ.le
            linarith
          have t2 : (0 : ℚ) ≤ (s.view_count : ℚ) / ((max s.video_count 1 : ℤ) : ℚ) / 10000 := by
            have := div_nonneg hw' hm
            linarith [div_nonneg (div_nonneg hw' hm) (by norm_num : (0:ℚ) ≤ 10000)]
          linarith
        · exact min_le_right _ _
      · simp [growthScore, hpub, hage]

theorem derived_score_bounds_witness :
    (0 ≤ aiRelevanceScore exampleChannel ∧ aiRelevanceScore exampleChannel ≤ 100) ∧
    (0 ≤ growthScore exampleChannel ∧ growthScore exampleChannel ≤ 1000) :=
  derived_score_bounds exampleChannel (by decide) (by decide) (by decide)

/-- C8: when `published_at` is missing or unparseable (`none` parse outcome)
the growth score is 0 and the recency component of the performance score is
0, so the performance score degrades to the view-ratio and engagement terms;
the `try/except` guards mean no exception escapes (totality of the model). -/
theorem unparseable_date_defaults :
    (∀ s : ChannelStats, s.published_age_days = none → growthScore s = 0) ∧
    (∀ (v : VideoStats) (engagement_rate : ℚ) (subscriber_count : ℤ),
      v.published_age_days = none →
        recencyScore v = 0 ∧
        performanceScore v engagement_rate subscriber_count =
          (v.view_count : ℚ) / ((max subscriber_count 1 : ℤ) : ℚ) * 1000 +
            engagement_rate * 10) := by
  constructor
  · intro s h
    simp [growthScore, h]
  · intro v er subs h
    have hr : recencyScore v = 0 := by simp [recencyScore, h]
    exact ⟨hr, by simp [performanceScore, hr]⟩

theorem unparseable_date_defaults_witness :
    growthScore exampleChannel = 0 ∧ recencyScore exampleVideo = 0 :=
  ⟨unparseable_date_defaults.1 exampleChannel rfl,
   (unparseable_date_defaults.2 exampleVideo 0 0 rfl).1⟩

/-- C5: the trend score is the capped sum of twice the frequency of each
table topic occurring in the lowercased title plus 5 per trending keyword
occurring in it; the scenario (table `{"ai": 10}`, title
"Why AI is the Future") yields 25. -/
theorem trend_score_spec :
    (∀ (title : String) (trending_topics : List (String × ℤ)),
      calculateTrendScore title trending_topics =
        min (((trending_topics.filter (fun p => strIn p.1 (pyLower title))).map
                (fun p => 2 * p.2)).sum +
             5 * ((trendingKeywords.filter (fun k => strIn k (pyLower title))).length : ℤ))
          100) ∧
    calculateTrendScore "Why AI is the Future" [("ai", 10)] = 25 := by
  constructor
  · intro title tt
    simp only [calculateTrendScore]
    rw [foldl_if_add_eq (fun p => strIn p.1 (pyLower title)) (fun p => p.2 * 2) tt 0]
    rw [foldl_if_add_eq (fun k => strIn k (pyLower title)) (fun _ => (5 : ℤ)) trendingKeywords]
    have h1 : ((tt.filter (fun p => strIn p.1 (pyLower title))).map (fun p => p.2 * 2)).sum
        = ((tt.filter (fun p => strIn p.1 (pyLower title))).map (fun p => 2 * p.2)).sum := by
      generalize tt.filter (fun p => strIn p.1 (pyLower title)) = l
      induction l with
      | nil => simp
      | cons x t ih => simp [ih, mul_comm]
    have h2 : ((trendingKeywords.filter (fun k => strIn k (pyLower title))).map
        (fun _ => (5 : ℤ))).sum
        = 5 * ((trendingKeywords.filter (fun k => strIn k (pyLower title))).length : ℤ) := by
      generalize trendingKeywords.filter (fun k => strIn k (pyLower title)) = l
      induction l with
      | nil => simp
      | cons x t ih =>
        simp only [List.map_cons, List.sum_cons, ih, List.length_cons]
        push_cast
        ring
    rw [zero_add, h1, h2]
  · decide

/-- C9: the difficulty is the per-category base difficulty, escalated
exactly one level (Easy to Medium, Medium to Hard, Hard unchanged) when the
lowercased title contains a complexity word, and is always one of Easy,
Medium, Hard. -/
theorem difficulty_spec :
    ∀ (category title : String),
      estimateDifficulty category title =
        (if complexityWords.any (fun w => strIn w (pyLower title)) then
          escalateOneLevel (baseDifficultyFor category)
        else baseDifficultyFor category) ∧
      estimateDifficulty category title ∈ (["Easy", "Medium", "Hard"] : List String) := by
  intro c t
  have hbase : baseDifficultyFor c = "Easy" ∨ baseDifficultyFor c = "Medium" ∨
      baseDifficultyFor c = "Hard" := by
    simp only [baseDifficultyFor, difficultyTable, List.lookup]
    repeat' split
    all_goals simp
  refine ⟨rfl, ?_⟩
  rcases hbase with h | h | h <;>
    by_cases hc : complexityWords.any (fun w => strIn w (pyLower t)) <;>
      simp [estimateDifficulty, escalateOneLevel, h, hc]

/-- C7: for every category string outside the fixed six-category enum, each
per-category generator (script dispatch, thumbnail concepts, estimated-views
base, difficulty base, call-to-action) returns its documented generic
fallback value; all lookups are total, so none can raise. -/
theorem category_fallbacks (category : String) (h : category ∉ knownCategories) :
    (∀ title, generateScriptForIdea category title = generalScript title) ∧
    thumbnailConceptsFor category = genericThumbnailConcepts ∧
    baseViewsFor category = 150000 ∧
    baseDifficultyFor category = "Medium" ∧
    generateCallToAction category = genericCallToAction := by
  simp only [knownCategories, List.mem_cons, List.not_mem_nil, or_false, not_or] at h
  obtain ⟨h1, h2, h3, h4, h5, h6⟩ := h
  have b1 : (category == "tutorial") = false := beq_eq_false_iff_ne.mpr h1
  have b2 : (category == "news") = false := beq_eq_false_iff_ne.mpr h2
  have b3 : (category == "comparison") = false := beq_eq_false_iff_ne.mpr h3
  have b4 : (category == "explanation") = false := beq_eq_false_iff_ne.mpr h4
  have b5 : (category == "prediction") = false := beq_eq_false_iff_ne.mpr h5
  have b6 : (category == "review") = false := beq_eq_false_iff_ne.mpr h6
  refine ⟨?_, ?_, ?_, ?_, ?_⟩
  · intro title
    simp [generateScriptForIdea, h1, h2, h3, h4, h5, h6]
  · simp [thumbnailConceptsFor, thumbnailConceptTable, List.lookup, b1, b2, b3, b4, b5, b6]
  · simp [baseViewsFor, baseViewsTable, List.lookup, b1, b2, b3, b4, b5, b6]
  · simp [baseDifficultyFor, difficultyTable, List.lookup, b1, b2, b3, b4, b5, b6]
  · simp [generateCallToAction, ctaTable, List.lookup, b1, b2, b3, b4, b5, b6]

theorem category_fallbacks_witness :
    generateScriptForIdea "interview" "AI Trends" = generalScript "AI Trends" ∧
    baseViewsFor "interview" = 150000 ∧
    baseDifficultyFor "interview" = "Medium" :=
  ⟨(category_fallbacks "interview" (by decide)).1 "AI Trends",
   (category_fallbacks "interview" (by decide)).2.2.1,
   (category_fallbacks "interview" (by decide)).2.2.2.1⟩

theorem compositeSort_trans :
    ∀ a b c : RankedChannel,
      decide (compositeScore b ≤ compositeScore a) = true →
      decide (compositeScore c ≤ compositeScore b) = true →
      decide (compositeScore c ≤ compositeScore a) = true := by
  intro a b c hab hbc
  simp only [decide_eq_true_eq] at *
  exact le_trans hbc hab

theorem compositeSort_total :
    ∀ a b : RankedChannel,
      (decide (compositeScore b ≤ compositeScore a) ||
        decide (compositeScore a ≤ compositeScore b)) = true := by
  intro a b
  simp only [Bool.or_eq_true, decide_eq_true_eq]
  exact le_total _ _

/-- C1: the influencer ranker returns exactly the admitted channels (those
passing the AI-relevance gate and the subscriber threshold, enriched with
their derived scores): the result is the `limit`-truncation of a sorted
list that is a permutation of the admitted pool, is pairwise descending in
the composite score `subscriber_count*0.4 + growth_score*0.3 +
ai_relevance_score*0.3`, and keeps channels of equal composite score in
first-appearance order (any fixed-score slice of the pool stays a sublist
of the sorted list). -/
theorem find_ai_influencers_spec (limit : ℕ) (channel_stats : List ChannelStats) :
    findAIInfluencers limit channel_stats =
      (pythonSortDescBy compositeScore (influencerPool channel_stats)).take limit ∧
    List.Perm (pythonSortDescBy compositeScore (influencerPool channel_stats))
      (influencerPool channel_stats) ∧
    List.Pairwise (fun a b => compositeScore b ≤ compositeScore a)
      (pythonSortDescBy compositeScore (influencerPool channel_stats)) ∧
    ∀ q : ℚ,
      List.Sublist
        ((influencerPool channel_stats).filter (fun r => decide (compositeScore r = q)))
        (pythonSortDescBy compositeScore (influencerPool channel_stats)) := by
  refine ⟨rfl, List.mergeSort_perm _ _, ?_, ?_⟩
  · have h := List.sorted_mergeSort compositeSort_trans compositeSort_total
      (influencerPool channel_stats)
    exact h.imp (fun hab => of_decide_eq_true hab)
  · intro q
    apply List.sublist_mergeSort compositeSort_trans compositeSort_total ?_
      (List.filter_sublist _)
    apply List.pairwise_of_forall_mem_list
    intro a ha b hb
    have ha' := (List.mem_filter.mp ha).2
    have hb' := (List.mem_filter.mp hb).2
    simp only [decide_eq_true_eq] at ha' hb'
    simp [ha', hb']

theorem padHashtags_of_ge (cur pool : List String) (h : 8 ≤ cur.length) :
    padHashtags cur pool = cur := by
  cases pool with
  | nil => rfl
  | cons p ps => simp [padHashtags, Nat.not_lt.mpr h]

theorem padHashtags_length_le :
    ∀ (pool cur : List String), (padHashtags cur pool).length ≤ max cur.length 8 := by
  intro pool
  induction pool with
  | nil =>
    intro cur
    simp only [padHashtags]
    omega
  | cons p ps ih =>
    intro cur
    simp only [padHashtags]
    by_cases hlt : cur.length < 8
    · rw [if_pos hlt]
      by_cases hmem : p ∈ cur
      · rw [if_pos hmem]
        have := ih cur
        omega
      · rw [if_neg hmem]
        have := ih (cur ++ [p])
        simp only [List.length_append, List.length_singleton] at this
        omega
    · rw [if_neg hlt]
      omega

theorem padHashtags_length_ge :
    ∀ (pool : List String), pool.Nodup →
      ∀ (cur : List String),
        min 8 (cur.length + (pool.filter (fun p => decide (p ∉ cur))).length) ≤
          (padHashtags cur pool).length := by
  intro pool
  induction pool with
  | nil =>
    intro _ cur
    simp only [padHashtags, List.filter_nil, List.length_nil]
    omega
  | cons p ps ih =>
    intro hnd cur
    have hp : p ∉ ps := (List.nodup_cons.mp hnd).1
    have hps : ps.Nodup := (List.nodup_cons.mp hnd).2
    simp only [padHashtags]
    by_cases hlt : cur.length < 8
    · rw [if_pos hlt]
      by_cases hmem : p ∈ cur
      · rw [if_pos hmem]
        have hfc : (p :: ps).filter (fun x => decide (x ∉ cur)) =
            ps.filter (fun x => decide (x ∉ cur)) := by
          simp [List.filter_cons, hmem]
        rw [hfc]
        exact ih hps cur
      · rw [if_neg hmem]
        have hfc : (p :: ps).filter (fun x => decide (x ∉ cur)) =
            p :: ps.filter (fun x => decide (x ∉ cur)) := by
          simp [List.filter_cons, hmem]
        have hcong : ps.filter (fun x => decide (x ∉ cur ++ [p])) =
            ps.filter (fun x => decide (x ∉ cur)) := by
          apply List.filter_congr
          intro x hx
          have hxp : x ≠ p := fun he => hp (he ▸ hx)
          simp [List.mem_append, hxp]
        have hih := ih hps (cur ++ [p])
        rw [hcong] at hih
        rw [hfc]
        simp only [List.length_append, List.length_singleton, List.length_cons] at hih ⊢
        omega
    · rw [if_neg hlt]
      omega

theorem padTake_bounds (S pool : List String) (cmp : String → String → Bool)
    (hnd : pool.Nodup) :
    (padHashtags ((S.mergeSort cmp).take 15) pool).length ≤ 15 ∧
    (8 ≤ S.length + (pool.filter (fun p => decide (p ∉ S))).length →
      8 ≤ (padHashtags ((S.mergeSort cmp).take 15) pool).length) := by
  have hlen : (S.mergeSort cmp).length = S.length := (List.mergeSort_perm S cmp).length_eq
  have htake : ((S.mergeSort cmp).take 15).length = min 15 S.length := by
    simp [List.length_take, hlen]
  constructor
  · have h1 := padHashtags_length_le pool ((S.mergeSort cmp).take 15)
    omega
  · intro hpool
    by_cases hk : 8 ≤ S.length
    · have hrel : 8 ≤ ((S.mergeSort cmp).take 15).length := by omega
      rw [padHashtags_of_ge _ _ hrel]
      exact hrel
    · have hall : (S.mergeSort cmp).take 15 = S.mergeSort cmp :=
        List.take_of_length_le (by omega)
      rw [hall]
      have hcong : pool.filter (fun p => decide (p ∉ S.mergeSort cmp)) =
          pool.filter (fun p => decide (p ∉ S)) := by
        apply List.filter_congr
        intro x _
        simp [List.mem_mergeSort]
      have hge := padHashtags_length_ge pool hnd (S.mergeSort cmp)
      rw [hcong, hlen] at hge
      omega

/-- C6: hashtag selection returns at most 15 hashtags, and at least 8
whenever the positively scored candidate hashtags together with the
six-element popular-AI fallback list supply at least 8 distinct hashtag
strings. -/
theorem select_hashtags_spec (title : String) (hashtags : List String) :
    (selectHashtagsForTopic title hashtags).length ≤ 15 ∧
    (8 ≤ (hashtagCandidatePool title hashtags).length →
      8 ≤ (selectHashtagsForTopic title hashtags).length) := by
  have hnodup : popularAIHashtags.Nodup := by decide
  have h := padTake_bounds (positivelyScoredHashtags title hashtags) popularAIHashtags
    (fun a b => decide (hashtagScore (pyLower title) b ≤ hashtagScore (pyLower title) a))
    hnodup
  have hpool : (hashtagCandidatePool title hashtags).length =
      (positivelyScoredHashtags title hashtags).length +
        (popularAIHashtags.filter
          (fun p => decide (p ∉ positivelyScoredHashtags title hashtags))).length := by
    simp [hashtagCandidatePool]
  exact ⟨h.1, fun hp => h.2 (by omega)⟩

theorem select_hashtags_spec_witness :
    8 ≤ (hashtagCandidatePool "AI" ["#ai", "#ml"]).length ∧
    8 ≤ (selectHashtagsForTopic "AI" ["#ai", "#ml"]).length ∧
    (selectHashtagsForTopic "AI" ["#ai", "#ml"]).length ≤ 15 :=
  ⟨by decide, (select_hashtags_spec "AI" ["#ai", "#ml"]).2 (by decide),
   (select_hashtags_spec "AI" ["#ai", "#ml"]).1⟩

theorem startsWithL_append :
    ∀ (nd l : List Char), startsWithL nd l = true → l = nd ++ l.drop nd.length := by
  intro nd
  induction nd with
  | nil => intro l _; simp
  | cons a as ih =>
    intro l h
    cases l with
    | nil => simp [startsWithL] at h
    | cons b bs =>
      simp only [startsWithL, Bool.and_eq_true, beq_iff_eq] at h
      obtain ⟨rfl, h2⟩ := h
      simp only [List.length_cons, List.cons_append, List.drop_succ_cons]
      exact congrArg _ (ih bs h2)

theorem splitFirstL_eq (nd : List Char) :
    ∀ (hay a b : List Char), splitFirstL nd hay = some (a, b) → hay = a ++ nd ++ b := by
  intro hay
  induction hay with
  | nil =>
    intro a b h
    simp only [splitFirstL] at h
    split at h
    · rename_i hs
      simp only [Option.some.injEq, Prod.mk.injEq] at h
      obtain ⟨rfl, rfl⟩ := h
      cases nd with
      | nil => simp
      | cons x xs => simp [startsWithL] at hs
    · exact absurd h (by simp)
  | cons c t ih =>
    intro a b h
    simp only [splitFirstL] at h
    split at h
    · rename_i hs
      simp only [Option.some.injEq, Prod.mk.injEq] at h
      obtain ⟨rfl, rfl⟩ := h
      simpa using startsWithL_append nd (c :: t) hs
    · revert h
      cases hm : splitFirstL nd t with
      | none => intro h; exact absurd h (by simp)
      | some ab =>
        intro h
        simp only [Option.some.injEq] at h
        obtain ⟨a', b'⟩ := ab
        have ht := ih a' b' hm
        obtain ⟨rfl, rfl⟩ := Prod.mk.injEq .. ▸ h
        simp [ht]

theorem containsSub_braceCount (t : List Char)
    (h : containsSub placeholderL t = true) : 1 ≤ braceCount t := by
  obtain ⟨⟨a, b⟩, hab⟩ := Option.isSome_iff_exists.mp h
  have ht := splitFirstL_eq placeholderL t a b hab
  subst ht
  simp only [braceCount, List.countP_append]
  have hph : List.countP (fun c => c == '\x7b') placeholderL = 1 := by decide
  omega

theorem braceCount_replaceFirstL (t rep : List Char)
    (h : containsSub placeholderL t = true) (hrep : braceCount rep = 0) :
    braceCount (replaceFirstL placeholderL rep t) + 1 = braceCount t := by
  obtain ⟨⟨a, b⟩, hab⟩ := Option.isSome_iff_exists.mp h
  have ht := splitFirstL_eq placeholderL t a b hab
  rw [replaceFirstL, hab]
  subst ht
  simp only [braceCount, List.countP_append] at hrep ⊢
  have hph : List.countP (fun c => c == '\x7b') placeholderL = 1 := by decide
  omega

theorem getD_braceCount :
    ∀ (l : List String) (n : ℕ) (d : String),
      (∀ x ∈ l, braceCount x.toList = 0) → braceCount d.toList = 0 →
      braceCount (l.getD n d).toList = 0 := by
  intro l
  induction l with
  | nil =>
    intro n d _ hd
    simpa [List.getD] using hd
  | cons x t ih =>
    intro n d hl hd
    cases n with
    | zero => simpa [List.getD] using hl x (by simp)
    | succ m =>
      simp only [List.getD_cons_succ]
      exact ih m d (fun y hy => hl y (by simp [hy])) hd

theorem contextualFill_braceCount (t : List Char) (r : ℕ) :
    braceCount (contextualFill t r) = 0 := by
  simp only [contextualFill, pickFrom]
  split
  · exact getD_braceCount minutesPool _ "" (by decide) (by decide)
  · split
    · exact getD_braceCount daysPool _ "" (by decide) (by decide)
    · split
      · exact getD_braceCount monthsPool _ "" (by decide) (by decide)
      · exact getD_braceCount miscPool _ "" (by decide) (by decide)

theorem fillRemaining_no_placeholder :
    ∀ (fuel i : ℕ) (t : List Char) (rands : ℕ → ℕ), braceCount t ≤ fuel →
      containsSub placeholderL (fillRemaining fuel i t rands) = false := by
  intro fuel
  induction fuel with
  | zero =>
    intro i t rands hb
    simp only [fillRemaining]
    rw [Bool.eq_false_iff]
    intro hc
    have := containsSub_braceCount t hc
    omega
  | succ fuel ih =>
    intro i t rands hb
    simp only [fillRemaining]
    by_cases hc : containsSub placeholderL t = true
    · rw [if_pos hc]
      apply ih
      have h1 := braceCount_replaceFirstL t (contextualFill t (rands i)) hc
        (contextualFill_braceCount t (rands i))
      omega
    · rw [if_neg hc]
      exact Bool.not_eq_true _ ▸ hc

theorem generateTitle_no_placeholder (template : String) (selected_topics : List String)
    (rands : ℕ → ℕ) :
    containsSub placeholderL (generateTitleFromTemplate template selected_topics rands).toList
      = false := by
  simp only [generateTitleFromTemplate]
  by_cases h : containsSub placeholderL template.toList = false
  · rw [if_pos h]
    exact h
  · rw [if_neg h]
    exact fillRemaining_no_placeholder _ 0 _ rands le_rfl

/-- C10: for every template of the fixed template table and every topic list
(including the empty one), title generation terminates (the fill loop runs
at most `braceCount` times, the measure its model uses as fuel) and the
resulting title contains no unfilled placeholder, placeholders beyond the
available topics being filled from the contextual number/year pools. -/
theorem title_generation_spec :
    ∀ entry ∈ contentTemplates, ∀ template ∈ entry.2,
      ∀ (selected_topics : List String) (rands : ℕ → ℕ),
        strIn (String.mk placeholderL)
          (generateTitleFromTemplate template selected_topics rands) = false := by
  intro entry _ template _ selected_topics rands
  have h := generateTitle_no_placeholder template selected_topics rands
  simpa [strIn] using h

theorem title_generation_spec_witness :
    strIn (String.mk placeholderL)
      (generateTitleFromTemplate "Complete \x7b\x7d Tutorial for Beginners" [] (fun _ => 0))
      = false := by
  have hentry : ("tutorial",
      ["How to Build \x7b\x7d in \x7b\x7d Minutes",
       "Complete \x7b\x7d Tutorial for Beginners",
       "Master \x7b\x7d in \x7b\x7d Steps",
       "\x7b\x7d Explained Simply",
       "Build Your First \x7b\x7d Project"]) ∈ contentTemplates := by decide
  exact title_generation_spec _ hentry "Complete \x7b\x7d Tutorial for Beginners" (by decide)
    [] (fun _ => 0)
